import Mathlib

/-!
Verification of the room-reservation core against its implementation.

The embedding is shallow: timestamps are integers (minutes), the Prisma store is
a list of reservation records, a `findMany` call with a `where` clause is a
filter over that list, and each effectful collaborator (HTTP fetch, date
parsing, validation) is passed in as an explicit outcome value.
-/

/-- A persisted reservation record (the Prisma `reservation` row, also carried
by `ReservationEntity`). `startTime` and `endTime` are timestamps in minutes. -/
structure Reservation where
  id : Nat
  userId : String
  roomId : Int
  startTime : Int
  endTime : Int
  status : String
  regdate : Int
deriving DecidableEq, Repr

namespace ReservationRepository

/-- The configured room set: `private readonly AVAILABLE_ROOMS = [1, 4, 5, 6]`. -/
def AVAILABLE_ROOMS : List Int := [1, 4, 5, 6]

/-- Embeds `findReservationsByDateTime`: the Prisma query
`startTime: { gte: startDateTime }, endTime: { lte: endDateTime }` over the
store, where `startDateTime`/`endDateTime` are the composed date+hour
timestamps. -/
def findReservationsByDateTime (db : List Reservation)
    (startDateTime endDateTime : Int) : List Reservation :=
  db.filter fun r =>
    decide (startDateTime ≤ r.startTime) && decide (r.endTime ≤ endDateTime)

/-- Embeds the bulk fetch inside `findAvailableRooms`: the Prisma query
`AND: [ startTime: { lte: endDateTime }, endTime: { gt: searchDateTime } ]`,
where `endDateTime = searchDateTime + 1 hour` (60 minutes). -/
def fetchWindowReservations (db : List Reservation)
    (searchDateTime : Int) : List Reservation :=
  db.filter fun r =>
    decide (r.startTime ≤ searchDateTime + 60) && decide (searchDateTime < r.endTime)

/-- The per-room availability report (`IAvailableRoom`). -/
structure AvailableRoom where
  roomId : Int
  isAvailable : Bool
  conflictingReservations : List Reservation
deriving DecidableEq, Repr

/-- Embeds `findAvailableRooms`: one bulk fetch for the one-hour window starting
at `searchDateTime`, then a per-room partition of the fetched reservations by
`roomId`; a room is available iff its partition has length 0. -/
def findAvailableRooms (db : List Reservation) (searchDateTime : Int) :
    List AvailableRoom :=
  let reservations := fetchWindowReservations db searchDateTime
  AVAILABLE_ROOMS.map fun roomId =>
    let roomReservations := reservations.filter fun r => r.roomId == roomId
    { roomId := roomId
      isAvailable := roomReservations.length == 0
      conflictingReservations := roomReservations }

end ReservationRepository

namespace ReservationRepository

/-- A reservation whose interval starts exactly where the requested one-hour
window ends: window `[0, 60)`, reservation `[60, 120)`. -/
def touchingReservation : Reservation :=
  { id := 1, userId := "u1", roomId := 1, startTime := 60, endTime := 120
    status := "confirmed", regdate := 0 }

/-- A reservation that starts before the queried window but overlaps it:
reservation `[480, 600)` against window `[540, 660)`. -/
def strictOverlapReservation : Reservation :=
  { id := 2, userId := "u2", roomId := 1, startTime := 480, endTime := 600
    status := "confirmed", regdate := 0 }

/-- A cancelled reservation overlapping the window `[0, 60)` on room 1. -/
def cancelledReservation : Reservation :=
  { id := 3, userId := "u3", roomId := 1, startTime := 0, endTime := 60
    status := "cancelled", regdate := 0 }

end ReservationRepository

open ReservationRepository

/-- C1 counterexample: a reservation starting exactly at the end of the
requested one-hour window (`r.startTime = w.end = 60`) is fetched as a
conflict and makes room 1 unavailable, even though `r.start < w.end` fails —
the query uses `lte`, not `lt`, so touching at the window's end does count. -/
theorem c1_touching_endpoint_is_reported :
    fetchWindowReservations [touchingReservation] 0 = [touchingReservation] ∧
    findAvailableRooms [touchingReservation] 0 =
      [⟨1, false, [touchingReservation]⟩, ⟨4, true, []⟩, ⟨5, true, []⟩,
       ⟨6, true, []⟩] ∧
    ¬ (touchingReservation.startTime < 0 + 60) := by
  refine ⟨by decide, by decide, by decide⟩

/-- C1 (amended): a reservation `r` is reported as conflicting with the
one-hour window `w = [s, s+60)` iff `r.start ≤ w.end AND w.start < r.end` —
the start comparison is non-strict, so a reservation that merely touches the
window's end is also reported as a conflict. -/
theorem c1_conflict_characterization (db : List Reservation) (s : Int)
    (a : AvailableRoom) (ha : a ∈ findAvailableRooms db s) (r : Reservation) :
    r ∈ a.conflictingReservations ↔
      r ∈ db ∧ r.roomId = a.roomId ∧ r.startTime ≤ s + 60 ∧ s < r.endTime := by
  simp only [findAvailableRooms, List.mem_map] at ha
  obtain ⟨roomId, _, rfl⟩ := ha
  simp only [List.mem_filter, fetchWindowReservations, Bool.and_eq_true,
    decide_eq_true_eq, beq_iff_eq]
  tauto

/-- C1 amended-claim witness at a concrete input. -/
theorem c1_conflict_characterization_witness :
    touchingReservation ∈
      (⟨1, false, [touchingReservation]⟩ : AvailableRoom).conflictingReservations ↔
      touchingReservation ∈ [touchingReservation] ∧
        touchingReservation.roomId = 1 ∧
        touchingReservation.startTime ≤ 0 + 60 ∧ 0 < touchingReservation.endTime :=
  c1_conflict_characterization [touchingReservation] 0
    ⟨1, false, [touchingReservation]⟩ (by decide) touchingReservation

/-- C2 counterexample: reservation `[480, 600)` intersects the window
`[540, 660)` (it starts before the window and ends inside it), yet the query
returns nothing, because it requires `startTime ≥ windowStart` and
`endTime ≤ windowEnd` (containment, not intersection). -/
theorem c2_overlapping_reservation_missed :
    findReservationsByDateTime [strictOverlapReservation] 540 660 = [] ∧
    strictOverlapReservation.startTime < 660 ∧
    540 < strictOverlapReservation.endTime := by
  refine ⟨by decide, by decide, by decide⟩

/-- C2 (amended): `findReservationsByDateTime` returns exactly the reservations
whose interval is fully contained in the queried window
(`startTime ≥ windowStart` and `endTime ≤ windowEnd`); reservations that start
before the window or end after it are not returned even when they intersect
it. -/
theorem c2_containment_characterization (db : List Reservation) (s e : Int)
    (r : Reservation) :
    r ∈ findReservationsByDateTime db s e ↔
      r ∈ db ∧ s ≤ r.startTime ∧ r.endTime ≤ e := by
  simp [findReservationsByDateTime, List.mem_filter]

/-- C3 counterexample: a reservation with status `"cancelled"` overlapping the
window still makes its room unavailable and appears in the conflict list — no
status filtering happens anywhere in `findAvailableRooms`. -/
theorem c3_cancelled_status_not_filtered :
    cancelledReservation.status = "cancelled" ∧
    findAvailableRooms [cancelledReservation] 0 =
      [⟨1, false, [cancelledReservation]⟩, ⟨4, true, []⟩, ⟨5, true, []⟩,
       ⟨6, true, []⟩] := by
  refine ⟨by decide, by decide⟩

/-- C3 (amended): the availability result has an entry for every configured
room `[1, 4, 5, 6]` in order; a room is available iff its partition of the
fetched reservations is empty, with no status filtering (cancelled reservations
also count as occupying); available rooms carry an empty conflict list; and on
an empty reservation set every room is available with an empty conflict list. -/
theorem c3_availability_shape (db : List Reservation) (s : Int) :
    (findAvailableRooms db s).map AvailableRoom.roomId = AVAILABLE_ROOMS ∧
    (∀ a ∈ findAvailableRooms db s,
      (a.isAvailable = true ↔ a.conflictingReservations = []) ∧
      a.conflictingReservations =
        (fetchWindowReservations db s).filter (fun r => r.roomId == a.roomId)) ∧
    (∀ a ∈ findAvailableRooms ([] : List Reservation) s,
      a.isAvailable = true ∧ a.conflictingReservations = []) := by
  refine ⟨?_, ?_, ?_⟩
  · rfl
  · intro a ha
    simp only [findAvailableRooms, List.mem_map] at ha
    obtain ⟨roomId, _, rfl⟩ := ha
    constructor
    · simp [List.length_eq_zero]
    · rfl
  · intro a ha
    simp only [findAvailableRooms, fetchWindowReservations, List.mem_map] at ha
    obtain ⟨roomId, _, rfl⟩ := ha
    simp

/-- C3 amended-claim witness at a concrete input. -/
theorem c3_availability_shape_witness :
    (findAvailableRooms [cancelledReservation] 0).map AvailableRoom.roomId =
      AVAILABLE_ROOMS ∧
    (∀ a ∈ findAvailableRooms [cancelledReservation] 0,
      (a.isAvailable = true ↔ a.conflictingReservations = []) ∧
      a.conflictingReservations =
        (fetchWindowReservations [cancelledReservation] 0).filter
          (fun r => r.roomId == a.roomId)) ∧
    (∀ a ∈ findAvailableRooms ([] : List Reservation) 0,
      a.isAvailable = true ∧ a.conflictingReservations = []) :=
  c3_availability_shape [cancelledReservation] 0

namespace Spec

/-- Time Interval Model contract from the spec: `overlaps(a, b)` is true iff
`a.start < b.end AND b.start < a.end` (half-open intervals; touching endpoints
do not overlap). -/
def overlaps (aStart aEnd bStart bEnd : Int) : Bool :=
  decide (aStart < bEnd) && decide (bStart < aEnd)

/-- The error taxonomy of the booking flow. -/
inductive CreateError
  | invalidInput
  | conflictOverlap (conflicting : List Reservation)
  | persistence (msg : String)
deriving DecidableEq, Repr

/-- A draft reservation carried by a create request. -/
structure CreateDraft where
  userId : String
  roomId : Int
  startTime : Int
  endTime : Int
deriving DecidableEq, Repr

/-- Modelled from the spec: the server-side handler behind
`/api/reservation/create` is not under `src/` (the client tool only forwards
the request to it), so it is modelled from the spec's Booking Coordinator and
external-interface sections: a `roomId` outside the configured room set, or a
non-positive window, is rejected with `InvalidInput` before any store access;
otherwise the overlapping reservations are fetched (one store call), an
overlap is rejected with the conflicting reservations, and a free slot goes to
`Store.create` (a second store call whose outcome is the `storeOutcome`
argument). The second component of the result counts the store calls made. -/
def handleCreateRequest (db : List Reservation) (draft : CreateDraft)
    (storeOutcome : Except String Reservation) :
    Except CreateError Reservation × Nat :=
  if !decide (draft.roomId ∈ ReservationRepository.AVAILABLE_ROOMS) ||
      decide (draft.endTime ≤ draft.startTime) then
    (Except.error CreateError.invalidInput, 0)
  else
    let conflicts := db.filter fun r =>
      r.roomId == draft.roomId &&
        overlaps r.startTime r.endTime draft.startTime draft.endTime
    if conflicts.isEmpty then
      match storeOutcome with
      | Except.ok created => (Except.ok created, 2)
      | Except.error msg => (Except.error (CreateError.persistence msg), 2)
    else
      (Except.error (CreateError.conflictOverlap conflicts), 1)

end Spec

/-- C4: a create request whose `roomId` is outside the configured room set
`[1, 4, 5, 6]` fails with `InvalidInput` and makes zero store calls. -/
theorem c4_invalid_room_rejected_before_store (db : List Reservation)
    (draft : Spec.CreateDraft) (storeOutcome : Except String Reservation)
    (h : draft.roomId ∉ ReservationRepository.AVAILABLE_ROOMS) :
    Spec.handleCreateRequest db draft storeOutcome =
      (Except.error Spec.CreateError.invalidInput, 0) := by
  simp [Spec.handleCreateRequest, h]

/-- C4 witness: room 2 is outside the configured set and is rejected with no
store call, even though the store itself would be failing. -/
theorem c4_invalid_room_rejected_before_store_witness :
    ((⟨"u1", 2, 0, 60⟩ : Spec.CreateDraft).roomId ∉
        ReservationRepository.AVAILABLE_ROOMS) ∧
    Spec.handleCreateRequest [] ⟨"u1", 2, 0, 60⟩ (Except.error "store down") =
      (Except.error Spec.CreateError.invalidInput, 0) :=
  ⟨by decide,
   c4_invalid_room_rejected_before_store [] ⟨"u1", 2, 0, 60⟩
     (Except.error "store down") (by decide)⟩

namespace SQLiteReservationTool

/-- The booking key: `${info.date}_${info.startTime}_${info.roomId}`. -/
def reservationKey (date startTime : String) (roomId : Int) : String :=
  date ++ "_" ++ startTime ++ "_" ++ toString roomId

/-- The request payload of `createReservation`. -/
structure CreateInfo where
  date : String
  startTime : String
  duration : Int
  roomId : Int
  userName : String
  content : String
deriving DecidableEq, Repr

/-- Outcome of the `fetch` to `/api/reservation/create`: the parsed `success`
field of an OK response, the thrown `errorData.error` of a non-OK response, or
a thrown network error. -/
inductive FetchOutcome
  | ok (success : Bool)
  | httpError (msg : String)
  | networkError (msg : String)
deriving DecidableEq, Repr

/-- Final state of one `createReservation` call: the value it returned or the
message it threw, the `activeReservations` lock map after the `finally` block,
and whether the fetch to the create API was issued. -/
structure CreateOutcome where
  result : Except String Bool
  locks : List String
  storeCalled : Bool
deriving Repr

/-- `Map.delete` on the lock map, which is embedded as its list of keys. -/
def deleteKey (locks : List String) (key : String) : List String :=
  locks.filter fun k => !(k == key)

/-- Embeds `createReservation`: if the key is already in `activeReservations`
the call throws before any fetch; otherwise the key is set, the fetch is
issued and its outcome returned or rethrown; on every path the `finally`
block deletes the key. -/
def createReservation (locks : List String) (info : CreateInfo)
    (fetchOutcome : FetchOutcome) : CreateOutcome :=
  let key := reservationKey info.date info.startTime info.roomId
  if locks.contains key then
    { result := Except.error "동일한 예약이 처리 중입니다."
      locks := deleteKey locks key
      storeCalled := false }
  else
    match fetchOutcome with
    | FetchOutcome.ok success =>
        { result := Except.ok success
          locks := deleteKey (key :: locks) key
          storeCalled := true }
    | FetchOutcome.httpError msg =>
        { result := Except.error msg
          locks := deleteKey (key :: locks) key
          storeCalled := true }
    | FetchOutcome.networkError msg =>
        { result := Except.error msg
          locks := deleteKey (key :: locks) key
          storeCalled := true }

/-- C5: a `createReservation` request arriving while the lock for its
`(date, startTime, roomId)` key is held fails immediately with the in-flight
conflict error and never issues the store fetch, while a request that finds
the key unlocked (the first to acquire) does proceed to the store. -/
theorem c5_inflight_request_rejected (locks : List String) (info : CreateInfo)
    (fo : FetchOutcome) :
    (locks.contains (reservationKey info.date info.startTime info.roomId) =
        true →
      (createReservation locks info fo).result =
          Except.error "동일한 예약이 처리 중입니다." ∧
      (createReservation locks info fo).storeCalled = false) ∧
    (locks.contains (reservationKey info.date info.startTime info.roomId) =
        false →
      (createReservation locks info fo).storeCalled = true) := by
  constructor
  · intro h
    have hmem : reservationKey info.date info.startTime info.roomId ∈ locks := by
      simpa using h
    simp [createReservation, hmem]
  · intro h
    have hmem : reservationKey info.date info.startTime info.roomId ∉ locks := by
      simpa using h
    cases fo <;> simp [createReservation, hmem]

/-- C5 witness: with the key for 2024-06-01 10:00 room 1 already locked, the
second request is rejected without a store call; with an empty lock map the
request reaches the store. -/
theorem c5_inflight_request_rejected_witness :
    (([reservationKey "2024-06-01" "10:00" 1].contains
        (reservationKey "2024-06-01" "10:00" 1) = true →
      (createReservation [reservationKey "2024-06-01" "10:00" 1]
          ⟨"2024-06-01", "10:00", 1, 1, "u1", "meeting"⟩
          (FetchOutcome.ok true)).result =
          Except.error "동일한 예약이 처리 중입니다." ∧
      (createReservation [reservationKey "2024-06-01" "10:00" 1]
          ⟨"2024-06-01", "10:00", 1, 1, "u1", "meeting"⟩
          (FetchOutcome.ok true)).storeCalled = false) ∧
    ([reservationKey "2024-06-01" "10:00" 1].contains
        (reservationKey "2024-06-01" "10:00" 1) = false →
      (createReservation [reservationKey "2024-06-01" "10:00" 1]
          ⟨"2024-06-01", "10:00", 1, 1, "u1", "meeting"⟩
          (FetchOutcome.ok true)).storeCalled = true)) :=
  c5_inflight_request_rejected [reservationKey "2024-06-01" "10:00" 1]
    ⟨"2024-06-01", "10:00", 1, 1, "u1", "meeting"⟩ (FetchOutcome.ok true)

/-- C6: after any completion of `createReservation` — returned success flag,
thrown HTTP error (which covers overlap rejections reported by the server), or
thrown network/persistence error — the lock map no longer contains the
request's key, and a subsequent request for the same key is not blocked: it
reaches the store again. -/
theorem c6_lock_released_on_every_path (locks : List String)
    (info : CreateInfo) (fo fo2 : FetchOutcome) :
    (createReservation locks info fo).locks.contains
        (reservationKey info.date info.startTime info.roomId) = false ∧
    (createReservation (createReservation locks info fo).locks info
        fo2).storeCalled = true := by
  have hrel : (createReservation locks info fo).locks.contains
      (reservationKey info.date info.startTime info.roomId) = false := by
    by_cases h : reservationKey info.date info.startTime info.roomId ∈ locks
    · simp [createReservation, h, deleteKey]
    · cases fo <;> simp [createReservation, h, deleteKey]
  have hmem : reservationKey info.date info.startTime info.roomId ∉
      (createReservation locks info fo).locks := by
    simpa using hrel
  refine ⟨hrel, ?_⟩
  generalize hL : (createReservation locks info fo).locks = L at hmem ⊢
  cases fo2 <;> simp [createReservation, hmem]

/-- One entry of the `timeRanges` table of `findNextAvailable`: an hour window
`[start, stop)` (`stop` embeds the source's `end` field, a reserved word). -/
structure TimeRange where
  start : Nat
  stop : Nat
deriving DecidableEq, Repr

/-- The `timeRanges` lookup table:
`{ morning: {9, 12}, afternoon: {13, 18}, all: {9, 18} }`; any other key reads
as `undefined`. -/
def timeRanges (name : String) : Option TimeRange :=
  if name = "morning" then some ⟨9, 12⟩
  else if name = "afternoon" then some ⟨13, 18⟩
  else if name = "all" then some ⟨9, 18⟩
  else none

/-- `timeRanges[options.timeRange] || timeRanges.all`: an unknown range name
falls back to the full-day window. -/
def resolveRange (name : String) : TimeRange :=
  (timeRanges name).getD ⟨9, 18⟩

/-- `String.padStart(2, '0')`. -/
def padStart2 (s : String) : String :=
  String.mk (List.replicate (2 - s.length) '0') ++ s

/-- The `HH:00` time string of the slot boundary at `hour`. -/
def hourString (hour : Nat) : String :=
  padStart2 (toString hour) ++ ":00"

/-- A candidate time slot as pushed onto `defaultSlots`. -/
structure Slot where
  date : String
  roomId : Int
  startTime : String
  endTime : String
deriving DecidableEq, Repr

/-- The `rooms = [1, 4, 5, 6]` constant of `findNextAvailable`. -/
def rooms : List Int := [1, 4, 5, 6]

/-- The `continue` guard of the room loop: a room is skipped iff
`options.preferredRoom` is truthy (present and non-zero) and differs from the
room. -/
def roomSkipped (preferredRoom : Option Int) (roomId : Int) : Bool :=
  match preferredRoom with
  | none => false
  | some p => !(p == 0) && !(p == roomId)

/-- The inner hour loop: one candidate slot per hour from `range.start` up to
but excluding `range.stop`. -/
def hourSlots (dateStr : String) (roomId : Int) (range : TimeRange) :
    List Slot :=
  (List.range' range.start (range.stop - range.start)).map fun hour =>
    { date := dateStr, roomId := roomId
      startTime := hourString hour
      endTime := hourString (hour + 1) }

/-- The candidate-slot generation loop of `findNextAvailable`, parametrised by
the room list it iterates over. -/
def generateDefaultSlots (dateStr : String) (roomList : List Int)
    (preferredRoom : Option Int) (range : TimeRange) : List Slot :=
  (roomList.filter fun roomId => !roomSkipped preferredRoom roomId).flatMap
    fun roomId => hourSlots dateStr roomId range

/-- `defaultSlots` as built by the source, over `rooms = [1, 4, 5, 6]`. -/
def defaultSlots (dateStr : String) (preferredRoom : Option Int)
    (range : TimeRange) : List Slot :=
  generateDefaultSlots dateStr rooms preferredRoom range

/-- An entry of `result.data` as read by the final filter: `roomId` and the
exact `startTime` string, plus the reservation's `endTime` string. -/
structure ReservedSlot where
  roomId : Int
  startTime : String
  endTime : String
deriving DecidableEq, Repr

/-- The per-slot test of the final filter: some reserved entry matches the
slot's `roomId` and exact `startTime` string. -/
def isReserved (reservedSlots : List ReservedSlot) (slot : Slot) : Bool :=
  reservedSlots.any fun reserved =>
    reserved.roomId == slot.roomId && reserved.startTime == slot.startTime

/-- The final filter of `findNextAvailable`:
`defaultSlots.filter(slot => !reservedSlots.some(...))`. -/
def filterSlots (slots : List Slot) (reservedSlots : List ReservedSlot) :
    List Slot :=
  slots.filter fun slot => !isReserved reservedSlots slot

/-- The slot computation of `findNextAvailable` after the API fetch: resolve
the range, generate the default slots over `rooms`, and either return them all
(no reserved slots — the fast path) or filter out the reserved ones. -/
def computeAvailableSlots (dateStr timeRange : String)
    (preferredRoom : Option Int) (reservedSlots : List ReservedSlot) :
    List Slot :=
  let range := resolveRange timeRange
  let slots := defaultSlots dateStr preferredRoom range
  if reservedSlots.length = 0 then slots else filterSlots slots reservedSlots

/-- C7: the slot generator resolves `morning` to `[9, 12)`, `afternoon` to
`[13, 18)` and `all` to the full-day window `[9, 18)`, and every unknown range
name falls back to the full-day window instead of failing. -/
theorem c7_range_resolution :
    resolveRange "morning" = ⟨9, 12⟩ ∧
    resolveRange "afternoon" = ⟨13, 18⟩ ∧
    resolveRange "all" = ⟨9, 18⟩ ∧
    ∀ name : String, name ≠ "morning" → name ≠ "afternoon" → name ≠ "all" →
      resolveRange name = ⟨9, 18⟩ := by
  refine ⟨rfl, rfl, rfl, ?_⟩
  intro name h1 h2 h3
  simp [resolveRange, timeRanges, h1, h2, h3]

/-- C7 witness: the unknown range name `evening` resolves to the full-day
window. -/
theorem c7_range_resolution_witness : resolveRange "evening" = ⟨9, 18⟩ :=
  c7_range_resolution.2.2.2 "evening" (by decide) (by decide) (by decide)

/-- Distinct hours below 24 produce distinct `HH:00` strings. -/
theorem hourString_inj_below24 :
    ∀ h1, h1 < 24 → ∀ h2, h2 < 24 → hourString h1 = hourString h2 → h1 = h2 := by
  decide

/-- Every resolved range ends by hour 24. -/
theorem resolveRange_stop_le (name : String) : (resolveRange name).stop ≤ 24 := by
  unfold resolveRange timeRanges
  split_ifs <;> decide

/-- Two generated candidates with the same room and exact start-time string are
the same slot, provided the range ends by hour 24 (true of every resolved
range). -/
theorem generateDefaultSlots_inj (dateStr : String) (roomList : List Int)
    (pr : Option Int) (range : TimeRange) (hstop : range.stop ≤ 24)
    (s c : Slot) (hs : s ∈ generateDefaultSlots dateStr roomList pr range)
    (hc : c ∈ generateDefaultSlots dateStr roomList pr range)
    (hroom : s.roomId = c.roomId) (hstart : s.startTime = c.startTime) :
    s = c := by
  simp only [generateDefaultSlots, List.mem_flatMap, List.mem_filter, hourSlots,
    List.mem_map, List.mem_range'_1] at hs hc
  obtain ⟨r1, hr1, h1, hh1, rfl⟩ := hs
  obtain ⟨r2, hr2, h2, hh2, rfl⟩ := hc
  simp only at hroom hstart
  have hb1 : h1 < 24 := by omega
  have hb2 : h2 < 24 := by omega
  have : h1 = h2 := hourString_inj_below24 h1 hb1 h2 hb2 hstart
  subst this
  simp [hroom]

/-- Each room contributes one slot per hour of the range. -/
theorem length_hourSlots (dateStr : String) (roomId : Int) (range : TimeRange) :
    (hourSlots dateStr roomId range).length = range.stop - range.start := by
  simp [hourSlots]

/-- C8: with no reserved slots the generator returns exactly the candidate
grid — `roomList.length × (stop − start)` slots when no preferred room
restricts the loop — and `computeAvailableSlots` returns the whole
`defaultSlots` list unfiltered on an empty reservation set; one reserved entry
exactly matching a candidate's `(roomId, startTime)` removes exactly that
candidate: it is absent and every other candidate remains. -/
theorem c8_candidate_census_and_exact_removal (roomList : List Int)
    (d name : String) (pr : Option Int) :
    (generateDefaultSlots d roomList none (resolveRange name)).length =
      roomList.length *
        ((resolveRange name).stop - (resolveRange name).start) ∧
    computeAvailableSlots d name pr [] = defaultSlots d pr (resolveRange name) ∧
    ∀ c ∈ defaultSlots d pr (resolveRange name),
      c ∉ computeAvailableSlots d name pr [⟨c.roomId, c.startTime, c.endTime⟩] ∧
      ∀ s ∈ defaultSlots d pr (resolveRange name), s ≠ c →
        s ∈ computeAvailableSlots d name pr
          [⟨c.roomId, c.startTime, c.endTime⟩] := by
  refine ⟨?_, rfl, ?_⟩
  · simp only [generateDefaultSlots, roomSkipped, Bool.not_false,
      List.filter_true]
    induction roomList with
    | nil => simp
    | cons a t ih =>
        simp only [List.flatMap_cons, List.length_append, List.length_cons, ih,
          length_hourSlots]
        ring
  · intro c hc
    have hstop := resolveRange_stop_le name
    constructor
    · have hres : isReserved [⟨c.roomId, c.startTime, c.endTime⟩] c = true := by
        simp [isReserved]
      simp [computeAvailableSlots, filterSlots, List.mem_filter, hres]
    · intro s hs hne
      have hres : isReserved [⟨c.roomId, c.startTime, c.endTime⟩] s = false := by
        rw [Bool.eq_false_iff]
        intro hb
        simp only [isReserved, List.any_cons, List.any_nil, Bool.or_false,
          Bool.and_eq_true, beq_iff_eq] at hb
        exact hne (generateDefaultSlots_inj d rooms pr (resolveRange name)
          hstop s c hs hc hb.1.symm hb.2.symm)
      simp [computeAvailableSlots, filterSlots, List.mem_filter, hres, hs]

/-- C8 witness: on the morning grid, reserving exactly `(room 1, 09:00)`
removes that candidate while the distinct candidate `(room 1, 10:00)` stays. -/
theorem c8_candidate_census_and_exact_removal_witness :
    (⟨"2024-06-01", 1, "09:00", "10:00"⟩ : Slot) ∉
      computeAvailableSlots "2024-06-01" "morning" none
        [⟨1, "09:00", "10:00"⟩] ∧
    (⟨"2024-06-01", 1, "10:00", "11:00"⟩ : Slot) ∈
      computeAvailableSlots "2024-06-01" "morning" none
        [⟨1, "09:00", "10:00"⟩] :=
  ⟨((c8_candidate_census_and_exact_removal rooms "2024-06-01" "morning"
      none).2.2 ⟨"2024-06-01", 1, "09:00", "10:00"⟩ (by decide)).1,
   ((c8_candidate_census_and_exact_removal rooms "2024-06-01" "morning"
      none).2.2 ⟨"2024-06-01", 1, "09:00", "10:00"⟩ (by decide)).2
      ⟨"2024-06-01", 1, "10:00", "11:00"⟩ (by decide) (by decide)⟩

/-- Minutes-of-day denoted by a five-character `HH:MM` time string, used only
to state interval properties of the slot grid. -/
def parseHM (s : String) : Nat :=
  match s.data with
  | [h1, h2, _, m1, m2] =>
      ((h1.toNat - 48) * 10 + (h2.toNat - 48)) * 60 +
        ((m1.toNat - 48) * 10 + (m2.toNat - 48))
  | _ => 0

/-- C9 counterexample: the reserved entry `(room 1, 09:30 - 10:30)` is not
aligned to the slot grid; its window intersects the candidate
`(room 1, 09:00 - 10:00)` (09:30 < 10:00 and 09:00 < 10:30 in minutes), yet
that candidate survives the filter, because only the exact start-time string
is compared. -/
theorem c9_offgrid_reservation_does_not_block :
    parseHM "09:30" < parseHM "10:00" ∧ parseHM "09:00" < parseHM "10:30" ∧
    (⟨"2024-06-01", 1, "09:00", "10:00"⟩ : Slot) ∈
      computeAvailableSlots "2024-06-01" "morning" none
        [⟨1, "09:30", "10:30"⟩] := by
  refine ⟨by decide, by decide, by decide⟩

/-- C9 (amended): the filter removes exactly the candidate slots whose
`(roomId, startTime)` exactly matches some reserved entry — every other
candidate, including those whose window intersects an off-grid reservation,
is kept. -/
theorem c9_exact_match_characterization (slots : List Slot)
    (reservedSlots : List ReservedSlot) (slot : Slot) :
    slot ∈ filterSlots slots reservedSlots ↔
      slot ∈ slots ∧ ∀ r ∈ reservedSlots,
        ¬(r.roomId = slot.roomId ∧ r.startTime = slot.startTime) := by
  simp only [filterSlots, isReserved, List.mem_filter, Bool.not_eq_true',
    List.any_eq_false, Bool.and_eq_true, beq_iff_eq, not_and]

/-- C9 amended-claim witness: the off-grid reserved entry keeps the 09:00
candidate in the filtered list. -/
theorem c9_exact_match_characterization_witness :
    (⟨"2024-06-01", 1, "09:00", "10:00"⟩ : Slot) ∈
      filterSlots [⟨"2024-06-01", 1, "09:00", "10:00"⟩]
        [⟨1, "09:30", "10:30"⟩] ↔
      (⟨"2024-06-01", 1, "09:00", "10:00"⟩ : Slot) ∈
          [(⟨"2024-06-01", 1, "09:00", "10:00"⟩ : Slot)] ∧
        ∀ r ∈ [(⟨1, "09:30", "10:30"⟩ : ReservedSlot)],
          ¬(r.roomId = (1 : Int) ∧ r.startTime = "09:00") :=
  c9_exact_match_characterization [⟨"2024-06-01", 1, "09:00", "10:00"⟩]
    [⟨1, "09:30", "10:30"⟩] ⟨"2024-06-01", 1, "09:00", "10:00"⟩

/-- The overall result object of `findNextAvailable`. -/
structure FindNextResult where
  availableSlots : List Slot
  success : Bool
  error : Option String
deriving Repr

/-- Outcome of the `fetch` to `/api/reservation/find-next`: either the parsed
body's `data` field (`none` embeds a non-array value, which the source
replaces by `[]`) or a thrown message — a non-OK response throws
`'가용성 확인 실패'`, a network failure its own error. -/
inductive FindFetchOutcome
  | ok (data : Option (List ReservedSlot))
  | failure (msg : String)
deriving Repr

/-- Embeds `findNextAvailable` end-to-end. `parseOutcome` is the result of
resolving `options.startFrom` to a date (a `DateParsingTool` exception becomes
`Except.error`), `validationError` the result of
`ReservationValidator.validateDate`, and `fetchOutcome` the behaviour of the
availability API; the surrounding try/catch turns every thrown message into a
failure result instead of propagating it. -/
def findNextAvailable (timeRange : String) (preferredRoom : Option Int)
    (parseOutcome : Except String String) (validationError : Option String)
    (fetchOutcome : FindFetchOutcome) : FindNextResult :=
  match parseOutcome with
  | Except.error msg =>
      { availableSlots := [], success := false, error := some msg }
  | Except.ok dateStr =>
    match validationError with
    | some msg => { availableSlots := [], success := false, error := some msg }
    | none =>
      match fetchOutcome with
      | FindFetchOutcome.failure msg =>
          { availableSlots := [], success := false, error := some msg }
      | FindFetchOutcome.ok data =>
          { availableSlots :=
              computeAvailableSlots dateStr timeRange preferredRoom
                (data.getD [])
            success := true
            error := none }

/-- C10: `findNextAvailable` always returns a result object — every run is
either a success carrying no error, or a failure carrying an empty slot list,
`success = false` and an error message — and each failing dependency (date
parsing, date validation, the availability fetch) produces exactly that
failure shape with the thrown message. -/
theorem c10_no_exception_escapes (timeRange : String)
    (preferredRoom : Option Int) (parseOutcome : Except String String)
    (validationError : Option String) (fetchOutcome : FindFetchOutcome) :
    ((findNextAvailable timeRange preferredRoom parseOutcome validationError
        fetchOutcome).success = true ∧
      (findNextAvailable timeRange preferredRoom parseOutcome validationError
        fetchOutcome).error = none ∨
      (findNextAvailable timeRange preferredRoom parseOutcome validationError
          fetchOutcome).availableSlots = [] ∧
        (findNextAvailable timeRange preferredRoom parseOutcome validationError
          fetchOutcome).success = false ∧
        (findNextAvailable timeRange preferredRoom parseOutcome validationError
          fetchOutcome).error.isSome = true) ∧
    (∀ msg, parseOutcome = Except.error msg →
      findNextAvailable timeRange preferredRoom parseOutcome validationError
        fetchOutcome = ⟨[], false, some msg⟩) ∧
    (∀ d msg, parseOutcome = Except.ok d → validationError = some msg →
      findNextAvailable timeRange preferredRoom parseOutcome validationError
        fetchOutcome = ⟨[], false, some msg⟩) ∧
    (∀ d msg, parseOutcome = Except.ok d → validationError = none →
      fetchOutcome = FindFetchOutcome.failure msg →
      findNextAvailable timeRange preferredRoom parseOutcome validationError
        fetchOutcome = ⟨[], false, some msg⟩) := by
  cases parseOutcome <;> cases validationError <;> cases fetchOutcome <;>
    simp [findNextAvailable]

/-- C10 witness: an invalid date (validation error) yields the failure shape
with no slots, and a fetch failure after a valid date does too. -/
theorem c10_no_exception_escapes_witness :
    findNextAvailable "morning" none (Except.ok "2024-06-01")
      (some "지난 날짜는 예약할 수 없습니다.") (FindFetchOutcome.ok none) =
      ⟨[], false, some "지난 날짜는 예약할 수 없습니다."⟩ ∧
    findNextAvailable "morning" none (Except.ok "2024-06-01") none
      (FindFetchOutcome.failure "가용성 확인 실패") =
      ⟨[], false, some "가용성 확인 실패"⟩ :=
  ⟨(c10_no_exception_escapes "morning" none (Except.ok "2024-06-01")
      (some "지난 날짜는 예약할 수 없습니다.") (FindFetchOutcome.ok none)).2.2.1
      "2024-06-01" "지난 날짜는 예약할 수 없습니다." rfl rfl,
   (c10_no_exception_escapes "morning" none (Except.ok "2024-06-01") none
      (FindFetchOutcome.failure "가용성 확인 실패")).2.2.2
      "2024-06-01" "가용성 확인 실패" rfl rfl rfl⟩

end SQLiteReservationTool
